import Mathlib

/-!
# Verification of the recipe-chatbot routing core

Shallow embedding of the repository `recipe-chatbot` (backend of a cooking
assistant).  The embedded code comes from:

* `backend/schemas/models.py`      — fixed cookware inventory
* `backend/tools/query_classifier.py` — `QueryClassifier.classify_query`
* `backend/tools/web_search.py`    — `WebSearchTool.search_recipes`
* `backend/tools/cookware_checker.py` — `CookwareChecker.check_recipe_feasibility`
* `backend/graphs/recipe_graph.py` — the LangGraph workflow (`RecipeGraph`)

External collaborators (the OpenAI chat calls and the SERP HTTP call) are
modelled as function parameters returning `Except`, so every theorem
quantifies over all possible collaborator behaviours.  Python dynamic values
that flow out of `json.loads` are modelled by the inductive `JVal`; JSON
numbers are modelled as rationals (the Python float representation of a
decimal literal is identified with its exact decimal value).  Exceptions are
modelled with `Except String`.
-/

set_option maxHeartbeats 1000000
set_option maxRecDepth 100000

/-- Opening and closing curly-brace characters, used by the JSON model. -/
def lbrace : Char := Char.ofNat 123

/-- See `lbrace`. -/
def rbrace : Char := Char.ofNat 125

/-- The apostrophe character; several user-facing strings of the source
contain it. -/
def apos : String := (Char.ofNat 39).toString

/-- Model of the dynamic values produced by Python's `json.loads`:
`null`, booleans, numbers (as exact rationals), strings, lists and dicts.
Dicts are association lists with unique keys (the parser deduplicates keys
exactly as a Python dict does: last value wins, first insertion position
kept). -/
inductive JVal where
  | null
  | bool (b : Bool)
  | num (q : ℚ)
  | str (s : String)
  | arr (xs : List JVal)
  | obj (fs : List (String × JVal))
deriving Repr

/-- Look a key up in a modelled dict (`obj`).  Returns `none` when the value
is not an `obj` or the key is absent. -/
def obj_lookup (v : JVal) (key : String) : Option JVal :=
  match v with
  | .obj fs => (fs.find? (fun p => p.1 = key)).map (fun p => p.2)
  | _ => none

/-- `d.get(key, default)` on a Python dict; raises `AttributeError` when the
receiver is not a dict (strings, lists, numbers … have no `.get`). -/
def py_dict_get (v : JVal) (key : String) (default : JVal) : Except String JVal :=
  match v with
  | .obj fs =>
      match fs.find? (fun p => p.1 = key) with
      | some p => .ok p.2
      | none => .ok default
  | _ => .error "AttributeError: object has no attribute get"

/-- Python truthiness (`bool(x)`) of a modelled JSON value. -/
def pyTruthy (v : JVal) : Bool :=
  match v with
  | .null => false
  | .bool b => b
  | .num q => q ≠ 0
  | .str s => s ≠ ""
  | .arr xs => !xs.isEmpty
  | .obj fs => !fs.isEmpty

/-- `isinstance(v, (int, float))`.  In Python `bool` is a subclass of `int`,
so booleans count as numeric. -/
def py_isinstance_num (v : JVal) : Bool :=
  match v with
  | .num _ => true
  | .bool _ => true
  | _ => false

/-- Numeric value of a Python number (booleans compare as 0 / 1). -/
def py_num_val (v : JVal) : ℚ :=
  match v with
  | .num q => q
  | .bool b => if b then 1 else 0
  | _ => 0

/-- Python whitespace recognised by `str.strip()` (ASCII fragment). -/
def py_ws (c : Char) : Bool :=
  c = ' ' || c = '\t' || c = '\n' || c = '\r' || c = '\x0b' || c = '\x0c'

/-- `s.strip()`. -/
def py_strip (s : String) : String :=
  ⟨((s.data.dropWhile py_ws).reverse.dropWhile py_ws).reverse⟩

/-- `s[:n]` (slice of the first `n` code points). -/
def py_take (n : Nat) (s : String) : String :=
  ⟨s.data.take n⟩

/-- Does `sub` occur as a contiguous block starting at some position of the
character list? -/
def contains_aux (sub : List Char) : List Char → Bool
  | [] => sub.isEmpty
  | c :: rest => sub.isPrefixOf (c :: rest) || contains_aux sub rest

/-- Python substring containment `sub in s`. -/
def str_contains (s sub : String) : Bool :=
  contains_aux sub.data s.data

/-- `s.lower()` (ASCII fragment, which covers every keyword the routing
heuristics compare against). -/
def py_lower (s : String) : String :=
  ⟨s.data.map Char.toLower⟩

/-- String shown by a Python f-string for a decoded JSON value.  The float
case is approximated by exact-rational printing; no claim depends on it. -/
def py_str_of (v : JVal) : String :=
  match v with
  | .null => "None"
  | .bool b => if b then "True" else "False"
  | .num q => if q.den = 1 then toString q.num else toString q.num ++ "/" ++ toString q.den
  | .str s => s
  | .arr _ => "[...]"
  | .obj _ => lbrace.toString ++ "..." ++ rbrace.toString

/-! ## Model of `json.loads`

A recursive-descent JSON parser over the character list, faithful to the
grammar Python's `json.loads` accepts on the inputs that matter here
(objects, arrays, strings with the standard escapes, numbers with optional
fraction and exponent, `true` / `false` / `null`; no `NaN` / `Infinity`).
Recursion is fuelled; `json_loads` supplies ample fuel (each recursive call
either consumes a character or is one of at most three nested dispatch steps
per character). -/

/-- JSON whitespace accepted between tokens by `json.loads`. -/
def json_ws (c : Char) : Bool :=
  c = ' ' || c = '\t' || c = '\n' || c = '\r'

/-- Skip JSON whitespace. -/
def skip_ws (cs : List Char) : List Char :=
  cs.dropWhile json_ws

/-- Decimal value of a digit list. -/
def digits_val (ds : List Char) : Nat :=
  ds.foldl (fun a c => a * 10 + (c.toNat - 48)) 0

/-- Parse a JSON string body (after the opening quote), handling the
standard escapes. -/
def parse_string_body : List Char → List Char → Option (String × List Char)
  | acc, c :: rest =>
      if c = '"' then some (⟨acc.reverse⟩, rest)
      else if c = '\\' then
        match rest with
        | e :: rest2 =>
            if e = '"' then parse_string_body ('"' :: acc) rest2
            else if e = '\\' then parse_string_body ('\\' :: acc) rest2
            else if e = '/' then parse_string_body ('/' :: acc) rest2
            else if e = 'b' then parse_string_body ('\x08' :: acc) rest2
            else if e = 'f' then parse_string_body ('\x0c' :: acc) rest2
            else if e = 'n' then parse_string_body ('\n' :: acc) rest2
            else if e = 'r' then parse_string_body ('\r' :: acc) rest2
            else if e = 't' then parse_string_body ('\t' :: acc) rest2
            else if e = 'u' then
              match rest2 with
              | h1 :: h2 :: h3 :: h4 :: rest3 =>
                  match [h1, h2, h3, h4].mapM hex_val with
                  | some hs =>
                      let code := hs.foldl (fun a h => a * 16 + h) 0
                      if h : code.isValidChar then
                        parse_string_body (Char.ofNatAux code h :: acc) rest3
                      else none
                  | none => none
              | _ => none
            else none
        | [] => none
      else if c.toNat < 32 then none
      else parse_string_body (c :: acc) rest
  | _, [] => none
where
  /-- Value of one hex digit. -/
  hex_val (c : Char) : Option Nat :=
    if c.isDigit then some (c.toNat - 48)
    else if 'a' ≤ c ∧ c ≤ 'f' then some (c.toNat - 87)
    else if 'A' ≤ c ∧ c ≤ 'F' then some (c.toNat - 55)
    else none

/-- Parse the optional fraction part: its digit list and the remaining
input. -/
def parse_frac : List Char → Option (List Char × List Char)
  | '.' :: rest =>
      let fds := rest.takeWhile Char.isDigit
      if fds.isEmpty then none else some (fds, rest.dropWhile Char.isDigit)
  | cs => some ([], cs)

/-- Parse the optional exponent part: its sign, digit list and the
remaining input. -/
def parse_exp : List Char → Option (Bool × List Char × List Char)
  | e :: rest =>
      if e = 'e' ∨ e = 'E' then
        let (en, erest) : Bool × List Char :=
          match rest with
          | '-' :: r => (true, r)
          | '+' :: r => (false, r)
          | _ => (false, rest)
        let eds := erest.takeWhile Char.isDigit
        if eds.isEmpty then none else some (en, eds, erest.dropWhile Char.isDigit)
      else some (false, [], e :: rest)
  | [] => some (false, [], [])

/-- Parse a JSON number (sign, integer part without superfluous leading
zeros, optional fraction, optional exponent).  The exact decimal value is
assembled with integer arithmetic and one `mkRat`. -/
def parse_number (cs : List Char) : Option (JVal × List Char) :=
  let (neg, cs1) : Bool × List Char :=
    match cs with
    | '-' :: rest => (true, rest)
    | _ => (false, cs)
  let intDigits := cs1.takeWhile Char.isDigit
  let rest1 := cs1.dropWhile Char.isDigit
  if intDigits.isEmpty then none
  else if intDigits.length > 1 ∧ intDigits.head? = some '0' then none
  else
    match parse_frac rest1 with
    | none => none
    | some (fds, rest2) =>
        match parse_exp rest2 with
        | none => none
        | some (expNeg, eds, rest3) =>
            let mantNat : Nat := digits_val intDigits * 10 ^ fds.length + digits_val fds
            let mant : Int := if neg then -(mantNat : Int) else (mantNat : Int)
            let e : Nat := digits_val eds
            let q : ℚ :=
              if expNeg then mkRat mant (10 ^ fds.length * 10 ^ e)
              else mkRat (mant * (10 : Int) ^ e) (10 ^ fds.length)
            some (.num q, rest3)

/-- Insert a key into a modelled dict the way a Python dict does: an
existing key keeps its position and gets the new value, a new key is
appended. -/
def obj_insert (fs : List (String × JVal)) (k : String) (v : JVal) : List (String × JVal) :=
  if fs.any (fun p => p.1 = k) then
    fs.map (fun p => if p.1 = k then (p.1, v) else p)
  else fs ++ [(k, v)]

/-- Expect a literal keyword tail (`rue`, `alse`, `ull`). -/
def expect_lit (lit : List Char) (cs : List Char) (v : JVal) : Option (JVal × List Char) :=
  if lit.isPrefixOf cs then some (v, cs.drop lit.length) else none

mutual

/-- Parse one JSON value, skipping leading whitespace. -/
def parse_value : Nat → List Char → Option (JVal × List Char)
  | 0, _ => none
  | fuel + 1, cs =>
      match skip_ws cs with
      | [] => none
      | c :: rest =>
          if c = lbrace then parse_object fuel rest
          else if c = '[' then parse_array fuel rest
          else if c = '"' then (parse_string_body [] rest).map (fun p => (JVal.str p.1, p.2))
          else if c = 't' then expect_lit ['r', 'u', 'e'] rest (.bool true)
          else if c = 'f' then expect_lit ['a', 'l', 's', 'e'] rest (.bool false)
          else if c = 'n' then expect_lit ['u', 'l', 'l'] rest .null
          else parse_number (c :: rest)

/-- Parse an object after its opening brace. -/
def parse_object : Nat → List Char → Option (JVal × List Char)
  | 0, _ => none
  | fuel + 1, cs =>
      match skip_ws cs with
      | c :: rest =>
          if c = rbrace then some (.obj [], rest)
          else parse_members fuel (c :: rest) []
      | [] => none

/-- Parse object members (`"key": value` separated by commas), accumulating
into a Python-dict-like association list. -/
def parse_members : Nat → List Char → List (String × JVal) → Option (JVal × List Char)
  | 0, _, _ => none
  | fuel + 1, cs, acc =>
      match skip_ws cs with
      | c :: rest =>
          if c = '"' then
            match parse_string_body [] rest with
            | some (k, rest2) =>
                match skip_ws rest2 with
                | ':' :: rest3 =>
                    match parse_value fuel rest3 with
                    | some (v, rest4) =>
                        let acc2 := obj_insert acc k v
                        match skip_ws rest4 with
                        | ',' :: rest5 => parse_members fuel rest5 acc2
                        | d :: rest5 => if d = rbrace then some (.obj acc2, rest5) else none
                        | [] => none
                    | none => none
                | _ => none
            | none => none
          else none
      | [] => none

/-- Parse an array after its opening bracket. -/
def parse_array : Nat → List Char → Option (JVal × List Char)
  | 0, _ => none
  | fuel + 1, cs =>
      match skip_ws cs with
      | ']' :: rest => some (.arr [], rest)
      | _ => parse_items fuel cs []

/-- Parse array items separated by commas. -/
def parse_items : Nat → List Char → List JVal → Option (JVal × List Char)
  | 0, _, _ => none
  | fuel + 1, cs, acc =>
      match parse_value fuel cs with
      | some (v, rest) =>
          match skip_ws rest with
          | ',' :: rest2 => parse_items fuel rest2 (acc ++ [v])
          | ']' :: rest2 => some (.arr (acc ++ [v]), rest2)
          | _ => none
      | none => none

end

/-- Model of Python's `json.loads`: parse one value and require only
whitespace to remain. -/
def json_loads (s : String) : Option JVal :=
  match parse_value (3 * s.length + 8) s.data with
  | some (v, rest) => if (skip_ws rest).isEmpty then some v else none
  | none => none

/-! ## `backend/schemas/models.py` -/

/-- The hard-coded cookware inventory (`AVAILABLE_COOKWARE`). -/
def AVAILABLE_COOKWARE : List String :=
  ["Spatula", "Frying Pan", "Little Pot", "Stovetop", "Whisk", "Knife", "Ladle", "Spoon"]

/-! ## `backend/tools/query_classifier.py`

`QueryClassifier.classify_query` builds fixed prompts from the query and
makes one chat call.  The call is modelled by the function parameter
`llm : String → Except String String` mapping the query to the raw response
text (or to the exception message); the prompt text itself is semantically
inert because the call is universally quantified. -/

/-- Fallback judgment used by `classify_query` when the response is not
valid JSON. -/
def classifier_parse_fallback : JVal :=
  .obj [("is_cooking_related", .bool true),
        ("confidence", .num (mkRat 1 2)),
        ("reasoning", .str "Failed to parse classification, defaulting to cooking-related")]

/-- Fallback judgment used by `classify_query` on a call-level exception. -/
def classifier_error_fallback (e : String) : JVal :=
  .obj [("is_cooking_related", .bool true),
        ("confidence", .num (mkRat 1 2)),
        ("reasoning", .str ("Classification error: " ++ e))]

/-- `QueryClassifier.classify_query`: strip the response, `json.loads` it
and return the parsed value as-is; fall back on parse failure or on an
exception. -/
def classify_query (llm : String → Except String String) (query : String) : JVal :=
  match llm query with
  | .ok content =>
      match json_loads (py_strip content) with
      | some result => result
      | none => classifier_parse_fallback
  | .error e => classifier_error_fallback e

/-! ## `backend/tools/cookware_checker.py` -/

/-- The seven fields `check_recipe_feasibility` requires of a parsed
verdict. -/
def required_fields : List String :=
  ["can_make", "required_items", "available_items", "missing_items",
   "confidence", "suggestions", "reasoning"]

/-- Python `field in result` for a decoded JSON value: key membership for a
dict, element equality for a list, substring for a string; `none` models the
`TypeError` raised on the remaining types. -/
def py_in (field : String) (v : JVal) : Option Bool :=
  match v with
  | .obj fs => some (fs.any (fun p => p.1 = field))
  | .arr xs => some (xs.any (fun x => match x with | .str s => s = field | _ => false))
  | .str s => some (str_contains s field)
  | _ => none

/-- `all(field in result for field in required_fields)`; `none` models the
`TypeError` on a non-container (caught by the function's outer `except`). -/
def py_all_fields_in (fields : List String) (v : JVal) : Option Bool :=
  match v with
  | .obj _ => some (fields.all (fun f => (py_in f v).getD false))
  | .arr _ => some (fields.all (fun f => (py_in f v).getD false))
  | .str _ => some (fields.all (fun f => (py_in f v).getD false))
  | _ => none

/-- Python dict assignment `d[k] = f(d[k])` on a modelled dict: the value is
replaced in place, insertion order kept. -/
def update_field (fs : List (String × JVal)) (k : String) (f : JVal → JVal) :
    List (String × JVal) :=
  fs.map (fun p => if p.1 = k then (p.1, f p.2) else p)

/-- `if not isinstance(x, list): x = []`. -/
def coerce_list_py (v : JVal) : JVal :=
  match v with
  | .arr xs => .arr xs
  | _ => .arr []

/-- `if not isinstance(x, (int, float)) or not (0 <= x <= 1): x = 0.5`
(the comparison is only evaluated when the isinstance check passed, exactly
as Python's short-circuiting guarantees). -/
def coerce_confidence_py (v : JVal) : JVal :=
  if py_isinstance_num v ∧ 0 ≤ py_num_val v ∧ py_num_val v ≤ 1 then v
  else .num (mkRat 1 2)

/-- `if not isinstance(x, bool): x = True`. -/
def coerce_can_make_py (v : JVal) : JVal :=
  match v with
  | .bool b => .bool b
  | _ => .bool true

/-- The in-place coercions `check_recipe_feasibility` applies to a directly
parsed verdict that has all required fields: non-list item fields become
`[]`; a confidence that is not numeric (Python counts booleans as numeric)
or outside `[0, 1]` becomes `0.5`; a non-boolean `can_make` becomes
`true`. -/
def coerce_feasibility_fields (fs : List (String × JVal)) : List (String × JVal) :=
  let fs := update_field fs "required_items" coerce_list_py
  let fs := update_field fs "available_items" coerce_list_py
  let fs := update_field fs "missing_items" coerce_list_py
  let fs := update_field fs "confidence" coerce_confidence_py
  let fs := update_field fs "can_make" coerce_can_make_py
  fs

/-- The inventory as the Python list of strings placed into fallback
verdicts. -/
def available_cookware_jval : JVal :=
  .arr (AVAILABLE_COOKWARE.map JVal.str)

/-- Fallback verdict returned when every parsing attempt fails; the
reasoning embeds the first 100 characters of the unparseable response. -/
def cookware_parse_fallback (result_text : String) : JVal :=
  .obj [("can_make", .bool true),
        ("required_items", .arr []),
        ("available_items", available_cookware_jval),
        ("missing_items", .arr []),
        ("confidence", .num (mkRat 1 2)),
        ("suggestions", .str "Unable to analyze cookware requirements - response parsing failed"),
        ("reasoning", .str ("Failed to parse LLM response as JSON. Response: "
                             ++ py_take 100 result_text ++ "..."))]

/-- Fallback verdict returned by the outer `except Exception` handler
(call-level errors, and `TypeError`s escaping the parse block). -/
def cookware_error_fallback (e : String) : JVal :=
  .obj [("can_make", .bool true),
        ("required_items", .arr []),
        ("available_items", available_cookware_jval),
        ("missing_items", .arr []),
        ("confidence", .num (mkRat 3 10)),
        ("suggestions", .str ("Error during analysis: " ++ e)),
        ("reasoning", .str ("Analysis failed: " ++ e))]

/-- `re.search(r"\x7b.*\x7d", text, re.DOTALL)` with a greedy `.*`: the
substring from the first opening brace to the last closing brace, when the
latter lies strictly after the former. -/
def brace_extract (s : String) : Option String :=
  let cs := s.data
  let pre := cs.takeWhile (fun c => c ≠ lbrace)
  if pre.length = cs.length then none
  else
    let fromBrace := cs.drop pre.length
    let tailPart := fromBrace.drop 1
    let afterLast := tailPart.reverse.takeWhile (fun c => c ≠ rbrace)
    if afterLast.length = tailPart.length then none
    else some ⟨fromBrace.take (1 + (tailPart.length - afterLast.length))⟩

/-- Second parsing attempt of `check_recipe_feasibility`: extract the first
brace-delimited substring, parse it and return the parse result *without
any field validation or coercion*; otherwise the parse fallback. -/
def extract_json_path (result_text : String) : JVal :=
  match brace_extract result_text with
  | some json_text =>
      match json_loads json_text with
      | some result => result
      | none => cookware_parse_fallback result_text
  | none => cookware_parse_fallback result_text

/-- `CookwareChecker.check_recipe_feasibility`.  The chat call is modelled
by its outcome `llm_outcome` (response text or exception message).  A
`TypeError` raised while checking or indexing the fields of a parse result
of the wrong shape escapes to the outer handler, exactly as in the
source. -/
def check_recipe_feasibility (llm_outcome : Except String String) : JVal :=
  match llm_outcome with
  | .error e => cookware_error_fallback e
  | .ok content =>
      let result_text := py_strip content
      match json_loads result_text with
      | some result =>
          match py_all_fields_in required_fields result with
          | none => cookware_error_fallback "TypeError: argument is not iterable"
          | some true =>
              match result with
              | .obj fs => .obj (coerce_feasibility_fields fs)
              | _ => cookware_error_fallback "TypeError: indices must be integers"
          | some false => extract_json_path result_text
      | none => extract_json_path result_text

/-! ## `backend/tools/web_search.py` -/

/-- The parameters `search_recipes` sends to `https://serpapi.com/search`. -/
structure SerpRequest where
  q : String
  num : Nat
  api_key : String
  engine : String
deriving Repr

/-- The two exception classes distinguished by `search_recipes`:
`httpx.HTTPError` and any other `Exception`. -/
inductive SerpError where
  | http (msg : String)
  | other (msg : String)
deriving Repr

/-- One formatted search result (the four keys are always set by
`search_recipes`; the values are whatever the API returned, default
`""`). -/
structure FormattedResult where
  title : JVal
  link : JVal
  snippet : JVal
  displayed_link : JVal
deriving Repr

/-- The dict shapes `search_recipes` returns: `success`, `results` and
`error` / `query` / `num_results` as present in the respective literal. -/
structure SearchResult where
  success : Bool
  query : Option String
  num_results : Option Nat
  results : List FormattedResult
  error : Option String
deriving Repr

/-- Format the decoded `organic_results` value.  Iterating a non-list, or
calling `.get` on a non-dict element, raises inside the function's `try`
(modelled by `.error`), except that iterating an empty string or empty dict
yields no elements. -/
def format_organic_results (v : JVal) : Except String (List FormattedResult) :=
  match v with
  | .arr xs =>
      xs.mapM (fun x =>
        match x with
        | .obj fs =>
            let get := fun k => ((fs.find? (fun p => p.1 = k)).map Prod.snd).getD (.str "")
            .ok ⟨get "title", get "link", get "snippet", get "displayed_link"⟩
        | _ => .error "AttributeError: object has no attribute get")
  | .str s => if s.isEmpty then .ok [] else .error "AttributeError: object has no attribute get"
  | .obj fs => if fs.isEmpty then .ok [] else .error "AttributeError: object has no attribute get"
  | _ => .error "TypeError: object is not iterable"

/-- `WebSearchTool.search_recipes`.  `serp_api_key` models the environment
variable, `api_call` models the HTTP round-trip returning decoded JSON (or
an exception); the call inside the `try` receives the enhanced query with
the fixed suffix. -/
def search_recipes (serp_api_key : Option String)
    (api_call : SerpRequest → Except SerpError JVal)
    (query : String) (num_results : Nat) : SearchResult :=
  match serp_api_key with
  | none =>
      { success := false, query := none, num_results := none, results := [],
        error := some "SERP API key not configured" }
  | some key =>
      -- `if not self.serp_api_key` is a truthiness test: the empty string
      -- (a value `os.getenv` can return) also counts as unconfigured.
      if key = "" then
        { success := false, query := none, num_results := none, results := [],
          error := some "SERP API key not configured" }
      else
      let enhanced_query := query ++ " recipe cooking instructions"
      let params : SerpRequest :=
        { q := enhanced_query, num := num_results, api_key := key, engine := "google" }
      match api_call params with
      | .error (.http e) =>
          { success := false, query := none, num_results := none, results := [],
            error := some ("HTTP error: " ++ e) }
      | .error (.other e) =>
          { success := false, query := none, num_results := none, results := [],
            error := some ("Search error: " ++ e) }
      | .ok data =>
          match py_dict_get data "organic_results" (.arr []) with
          | .error e =>
              { success := false, query := none, num_results := none, results := [],
                error := some ("Search error: " ++ e) }
          | .ok organic =>
              match format_organic_results organic with
              | .ok formatted =>
                  { success := true, query := some query,
                    num_results := some formatted.length,
                    results := formatted, error := none }
              | .error e =>
                  { success := false, query := none, num_results := none, results := [],
                    error := some ("Search error: " ++ e) }

/-- `WebSearchTool.get_recipe_summary`, inner enumeration (1-based). -/
def summarize_results : Nat → List FormattedResult → List String
  | _, [] => []
  | i, r :: rs =>
      [toString i ++ ". **" ++ py_str_of r.title ++ "**",
       "   " ++ py_str_of r.snippet]
      ++ (if pyTruthy r.link then ["   Source: " ++ py_str_of r.link] else [])
      ++ [""]
      ++ summarize_results (i + 1) rs

/-- `WebSearchTool.get_recipe_summary`: human-readable digest of the first
three results. -/
def get_recipe_summary (search_results : List FormattedResult) : String :=
  if search_results.isEmpty then "No web search results available."
  else
    String.intercalate "\n"
      (["Here" ++ apos ++ "s what I found from web search:", ""]
        ++ summarize_results 1 (search_results.take 3))

/-! ## `backend/graphs/recipe_graph.py` -/

/-- The two booleans `decide_tools_node` records into
`debug_info["tool_decisions"]`. -/
structure ToolDecisions where
  needs_web_search : Bool
  needs_cookware_check : Bool
deriving Repr

/-- `debug_info`: a dict which may hold the classification result (set by
`classify_query_node`, which replaces the whole dict) and the tool
decisions (added by `decide_tools_node`). -/
structure DebugInfo where
  classification : Option JVal
  tool_decisions : Option ToolDecisions
deriving Repr

/-- `RecipeState` of the LangGraph workflow.  `is_cooking_related` holds the
raw value of `classification.get("is_cooking_related", False)` (the source
annotation says `bool`, but nothing enforces it); `web_search_results` is
`none` for the initial empty dict. -/
structure RecipeState where
  user_message : String
  is_cooking_related : JVal
  classification_result : JVal
  web_search_results : Option SearchResult
  cookware_check_result : JVal
  final_response : String
  tools_used : List String
  debug_info : DebugInfo
deriving Repr

/-- The external collaborators of one workflow run: the classifier chat
call, the SERP configuration and HTTP call, the feasibility chat call and
the response-synthesis chat call.  Each is an arbitrary function, so the
theorems quantify over every collaborator behaviour. -/
structure Collabs where
  classifier_llm : String → Except String String
  serp_api_key : Option String
  serp_call : SerpRequest → Except SerpError JVal
  checker_llm : String → Except String String
  responder_llm : String → String → Except String String

/-- `classify_query_node`: runs the classifier, stores the raw judgment,
stores `classification.get("is_cooking_related", False)` (which raises when
the judgment is not a dict — this is the one per-step gap the top-level
handler of `run` covers) and replaces `debug_info` with
`{"classification": classification}`. -/
def classify_query_node (C : Collabs) (state : RecipeState) :
    Except String RecipeState :=
  let classification := classify_query C.classifier_llm state.user_message
  match py_dict_get classification "is_cooking_related" (.bool false) with
  | .error e => .error e
  | .ok cooking =>
      .ok { state with
              classification_result := classification,
              is_cooking_related := cooking,
              debug_info := { classification := some classification, tool_decisions := none } }

/-- The fixed redirect message of `handle_non_cooking_node`. -/
def non_cooking_response : String :=
  "I" ++ apos ++ "m a cooking and recipe assistant! I" ++ apos
    ++ "d be happy to help you with cooking questions, recipe suggestions, "
    ++ "ingredient substitutions, cooking techniques, or meal planning. "
    ++ "What would you like to cook today?"

/-- `handle_non_cooking_node`: fixed redirect response and an empty tool
list. -/
def handle_non_cooking_node (state : RecipeState) : RecipeState :=
  { state with final_response := non_cooking_response, tools_used := [] }

/-- The web-search trigger phrases of `decide_tools_node`. -/
def search_keywords : List String :=
  ["recipe for", "how to make", "how do i", "recipe", "instructions"]

/-- The informational-query exclusion phrases shared by `decide_tools_node`
and `should_check_cookware`. -/
def skip_cookware_keywords : List String :=
  ["what is", "define", "explain", "tell me about", "history of",
   "nutrition", "calories", "where does", "when was", "who invented"]

/-- `decide_tools_node`: the keyword heuristics over the lower-cased
message, the default bias toward web search, and the record written into
`debug_info["tool_decisions"]`. -/
def decide_tools_node (state : RecipeState) : RecipeState :=
  let user_message := py_lower state.user_message
  let needs_web_search := search_keywords.any (fun k => str_contains user_message k)
  let needs_cookware_check := true
  let needs_cookware_check :=
    if skip_cookware_keywords.any (fun k => str_contains user_message k) then false
    else needs_cookware_check
  let needs_web_search :=
    if !needs_web_search && needs_cookware_check then true else needs_web_search
  { state with
      debug_info := { state.debug_info with
                        tool_decisions := some ⟨needs_web_search, needs_cookware_check⟩ } }

/-- `web_search_node`: run the search tool (`num_results` defaults to 5)
and append `"web_search"` to `tools_used`. -/
def web_search_node (C : Collabs) (state : RecipeState) : RecipeState :=
  let search_results := search_recipes C.serp_api_key C.serp_call state.user_message 5
  { state with
      web_search_results := some search_results,
      tools_used := state.tools_used ++ ["web_search"] }

/-- Python `str` concatenation used for `title + " " + snippet`: only
strings concatenate; anything else raises `TypeError` inside the node. -/
def py_as_str (v : JVal) : Except String String :=
  match v with
  | .str s => .ok s
  | _ => .error "TypeError: can only concatenate str to str"

/-- `result.get("title", "") + " " + result.get("snippet", "")` for one
formatted result (the keys are always present; non-string values raise
`TypeError`). -/
def title_snippet_text (r : FormattedResult) : Except String String :=
  match py_as_str r.title with
  | .error e => .error e
  | .ok t =>
      match py_as_str r.snippet with
      | .error e => .error e
      | .ok sn => .ok (t ++ " " ++ sn)

/-- The list comprehension producing one text per result (first raised
`TypeError` wins, as in Python). -/
def map_title_snippets : List FormattedResult → Except String (List String)
  | [] => .ok []
  | r :: rs =>
      match title_snippet_text r with
      | .error e => .error e
      | .ok x =>
          match map_title_snippets rs with
          | .error e => .error e
          | .ok xs => .ok (x :: xs)

/-- The recipe content `cookware_check_node` analyses: the joined
title-and-snippet text of the top two results of a successful, non-empty
search, otherwise the raw user message. -/
def cookware_recipe_content (state : RecipeState) : Except String String :=
  match state.web_search_results with
  | some wsr =>
      if wsr.success then
        if wsr.results.isEmpty then .ok state.user_message
        else
          match map_title_snippets (wsr.results.take 2) with
          | .ok parts => .ok (String.intercalate " " parts)
          | .error e => .error e
      else .ok state.user_message
  | none => .ok state.user_message

/-- `cookware_check_node`: choose the recipe content, run the feasibility
checker on it and append `"cookware_check"` to `tools_used`. -/
def cookware_check_node (C : Collabs) (state : RecipeState) :
    Except String RecipeState :=
  match cookware_recipe_content state with
  | .error e => .error e
  | .ok recipe_content =>
      let cookware_result := check_recipe_feasibility (C.checker_llm recipe_content)
      .ok { state with
              cookware_check_result := cookware_result,
              tools_used := state.tools_used ++ ["cookware_check"] }

/-- `", ".join(items)` on a decoded JSON value: list elements must be
strings; joining a string joins its characters; joining a dict joins its
keys; other types raise `TypeError`. -/
def py_join_comma (v : JVal) : Except String String :=
  match v with
  | .arr xs =>
      match xs.mapM py_as_str with
      | .ok ss => .ok (String.intercalate ", " ss)
      | .error e => .error e
  | .str s => .ok (String.intercalate ", " (s.data.map Char.toString))
  | .obj fs => .ok (String.intercalate ", " (fs.map Prod.fst))
  | _ => .error "TypeError: can only join an iterable"

/-- `CookwareChecker.get_cookware_summary`: markdown-flavoured digest of a
verdict.  `.get` on a non-dict verdict, or joining non-string missing
items, raises inside the caller's `try`. -/
def get_cookware_summary (cookware_result : JVal) : Except String String :=
  match py_dict_get cookware_result "can_make" (.bool false) with
  | .error e => .error e
  | .ok can_make =>
      match py_dict_get cookware_result "missing_items" (.arr []) with
      | .error e => .error e
      | .ok missing_items =>
          match py_dict_get cookware_result "suggestions" (.str "") with
          | .error e => .error e
          | .ok suggestions =>
              let summary :=
                if pyTruthy can_make then
                  "✅ **Good news!** You can make this recipe with your available cookware."
                else
                  "⚠️ **Heads up!** This recipe requires some cookware you don"
                    ++ apos ++ "t have."
              match
                (if pyTruthy missing_items then
                   match py_join_comma missing_items with
                   | .ok j => .ok (summary ++ "\n\n**Missing items:** " ++ j)
                   | .error e => .error e
                 else .ok summary : Except String String) with
              | .error e => .error e
              | .ok summary2 =>
                  .ok (if pyTruthy suggestions then
                         summary2 ++ "\n\n**Suggestions:** " ++ py_str_of suggestions
                       else summary2)

/-- The context blocks `generate_response_node` assembles before its chat
call (web-search digest, cookware digest), joined with blank lines. -/
def build_context (state : RecipeState) : Except String String :=
  let parts1 : List String :=
    match state.web_search_results with
    | some wsr =>
        if wsr.success then ["Web search results:\n" ++ get_recipe_summary wsr.results]
        else []
    | none => []
  match
    (if pyTruthy state.cookware_check_result then
       match get_cookware_summary state.cookware_check_result with
       | .ok s => .ok ["Cookware analysis:\n" ++ s]
       | .error e => .error e
     else .ok [] : Except String (List String)) with
  | .error e => .error e
  | .ok parts2 => .ok (String.intercalate "\n\n" (parts1 ++ parts2))

/-- The apology `generate_response_node` substitutes when anything inside
its `try` fails. -/
def generation_error_response : String :=
  "I apologize, but I encountered an error while generating your response. "
    ++ "Please try asking your cooking question again!"

/-- `generate_response_node`: build the context, make the synthesis chat
call, and on any exception fall back to the fixed apology — this node never
propagates an error. -/
def generate_response_node (C : Collabs) (state : RecipeState) : RecipeState :=
  let attempt : Except String String :=
    match build_context state with
    | .error e => .error e
    | .ok context => C.responder_llm state.user_message context
  match attempt with
  | .ok text => { state with final_response := text }
  | .error _ => { state with final_response := generation_error_response }

/-- Conditional edge `should_proceed_with_cooking` (string label consumed by
the graph). -/
def should_proceed_with_cooking (state : RecipeState) : String :=
  if pyTruthy state.is_cooking_related then "cooking" else "non_cooking"

/-- Conditional edge `which_tools_to_use`: reads the recorded decisions with
`.get(..., False)` defaults. -/
def which_tools_to_use (state : RecipeState) : String :=
  let needs_web :=
    match state.debug_info.tool_decisions with
    | some td => td.needs_web_search
    | none => false
  let needs_cookware :=
    match state.debug_info.tool_decisions with
    | some td => td.needs_cookware_check
    | none => false
  if needs_web && needs_cookware then "both"
  else if needs_web then "web_search"
  else if needs_cookware then "cookware_only"
  else "neither"

/-- Conditional edge `should_check_cookware`: trust a recorded positive
decision, otherwise independently re-scan the message against the exclusion
list, defaulting to yes. -/
def should_check_cookware (state : RecipeState) : String :=
  let needs_cookware :=
    match state.debug_info.tool_decisions with
    | some td => td.needs_cookware_check
    | none => false
  if needs_cookware then "yes"
  else
    let user_message := py_lower state.user_message
    if skip_cookware_keywords.any (fun k => str_contains user_message k) then "no"
    else "yes"

/-- The `web_search` node followed by its conditional edge
(`yes ↦ cookware_check ↦ generate_response`, `no ↦ generate_response`). -/
def web_search_path (C : Collabs) (s : RecipeState) : Except String RecipeState :=
  let s3 := web_search_node C s
  if should_check_cookware s3 = "yes" then
    match cookware_check_node C s3 with
    | .ok s4 => .ok (generate_response_node C s4)
    | .error e => .error e
  else if should_check_cookware s3 = "no" then .ok (generate_response_node C s3)
  else .error "KeyError: branch not found"

/-- One invocation of the compiled graph: the exact node-and-edge wiring of
`RecipeGraph._build_graph` (entry `classify_query`; the labels `both` and
`web_search` both route to the `web_search` node; `handle_non_cooking`,
`generate_response` terminal).  An error is an exception escaping a node
(caught only by `run`). -/
def graph_invoke (C : Collabs) (state : RecipeState) : Except String RecipeState :=
  match classify_query_node C state with
  | .error e => .error e
  | .ok s1 =>
      if should_proceed_with_cooking s1 = "cooking" then
        let s2 := decide_tools_node s1
        let r := which_tools_to_use s2
        if r = "web_search" ∨ r = "both" then web_search_path C s2
        else if r = "cookware_only" then
          match cookware_check_node C s2 with
          | .ok s3 => .ok (generate_response_node C s3)
          | .error e => .error e
        else if r = "neither" then .ok (generate_response_node C s2)
        else .error "KeyError: branch not found"
      else if should_proceed_with_cooking s1 = "non_cooking" then
        .ok (handle_non_cooking_node s1)
      else .error "KeyError: branch not found"

/-- The initial `RecipeState` built by `run` (empty dicts modelled by
`.obj []` / `none`). -/
def initial_state (user_message : String) : RecipeState :=
  { user_message := user_message,
    is_cooking_related := .bool false,
    classification_result := .obj [],
    web_search_results := none,
    cookware_check_result := .obj [],
    final_response := "",
    tools_used := [],
    debug_info := { classification := none, tool_decisions := none } }

/-- `debug_info` of the result payload: the workflow's dict on success, or
the single-key error dict built by the top-level handler. -/
inductive PayloadDebug where
  | info (d : DebugInfo)
  | err (e : String)
deriving Repr

/-- The payload `RecipeGraph.run` returns to the HTTP boundary.
`cookware_check` is `none` exactly when the error handler produced the
Python `None`. -/
structure RunPayload where
  response : String
  is_cooking_related : JVal
  tools_used : List String
  cookware_check : Option JVal
  debug_info : PayloadDebug
deriving Repr

/-- The fixed apology of the top-level exception handler of `run`. -/
def run_error_response : String :=
  "I apologize, but I encountered an error processing your request. Please try again!"

/-- `RecipeGraph.run`: build the initial state, invoke the graph, assemble
the payload; one top-level handler catches any escaped exception and
returns the apology payload instead of raising. -/
def run (C : Collabs) (user_message : String) : RunPayload :=
  match graph_invoke C (initial_state user_message) with
  | .ok final =>
      { response := final.final_response,
        is_cooking_related := final.is_cooking_related,
        tools_used := final.tools_used,
        cookware_check := some final.cookware_check_result,
        debug_info := .info final.debug_info }
  | .error e =>
      { response := run_error_response,
        is_cooking_related := .bool false,
        tools_used := [],
        cookware_check := none,
        debug_info := .err e }

/-! ## Concrete collaborator stubs

Deterministic collaborator instances used to evaluate the theorems on
concrete inputs. -/

/-- A classifier response that is valid JSON and reports a cooking-related
query. -/
def stub_cooking_json : String :=
  "\x7b\"is_cooking_related\": true, \"confidence\": 0.9, \"reasoning\": \"r\"\x7d"

/-- A classifier response that is valid JSON and reports a non-cooking
query. -/
def stub_noncooking_json : String :=
  "\x7b\"is_cooking_related\": false, \"confidence\": 0.9, \"reasoning\": \"r\"\x7d"

/-- Baseline stub collaborators: cooking classifier, no SERP key, a checker
response that is not JSON, a fixed synthesized answer. -/
def stub_collabs : Collabs :=
  { classifier_llm := fun _ => .ok stub_cooking_json,
    serp_api_key := none,
    serp_call := fun _ => .error (.other "no network"),
    checker_llm := fun _ => .ok "not json at all",
    responder_llm := fun _ _ => .ok "answer" }

/-- Stub whose classifier reports a non-cooking query. -/
def stub_noncooking_collabs : Collabs :=
  { stub_collabs with classifier_llm := fun _ => .ok stub_noncooking_json }

/-- Stub whose classifier returns a JSON list, so that
`classification.get(...)` raises and the exception escapes to `run`. -/
def stub_broken_classifier_collabs : Collabs :=
  { stub_collabs with classifier_llm := fun _ => .ok "[]" }

/-- A classifier response that is valid JSON whose confidence `1.5` lies
outside `[0, 1]`. -/
def c4_conf_json : String :=
  "\x7b\"is_cooking_related\": true, \"confidence\": 1.5, \"reasoning\": \"r\"\x7d"

/-- Stub whose classifier returns `c4_conf_json`. -/
def c4_collabs : Collabs :=
  { stub_collabs with classifier_llm := fun _ => .ok c4_conf_json }

/-- A feasibility response that is valid JSON with all required fields and
several ill-typed values (`can_make` a string, `required_items` a string,
confidence `1.5`). -/
def c7_text : String :=
  "\x7b\"can_make\": \"yes\", \"required_items\": \"x\", \"available_items\": [\"Spatula\"], "
    ++ "\"missing_items\": [], \"confidence\": 1.5, \"suggestions\": \"s\", \"reasoning\": \"r\"\x7d"

/-- A feasibility response with a well-typed confidence `0.8`. -/
def c7_ok_text : String :=
  "\x7b\"can_make\": true, \"required_items\": [], \"available_items\": [], "
    ++ "\"missing_items\": [], \"confidence\": 0.8, \"suggestions\": \"s\", \"reasoning\": \"r\"\x7d"

/-- A SERP call that only answers the enhanced query for `"pasta"`. -/
def c9_call_a : SerpRequest → Except SerpError JVal :=
  fun r => if r.q = "pasta recipe cooking instructions" then .ok (.obj [])
           else .error (.other "wrong query")

/-- A SERP call that answers every request identically to `c9_call_a` on
enhanced queries. -/
def c9_call_b : SerpRequest → Except SerpError JVal :=
  fun _ => .ok (.obj [])

/-- Abbreviation: does the lower-cased message contain a web-search trigger
phrase? -/
def msg_web_trigger (m : String) : Bool :=
  search_keywords.any (fun k => str_contains (py_lower m) k)

/-- Abbreviation: does the lower-cased message contain an
informational-exclusion phrase? -/
def msg_skip (m : String) : Bool :=
  skip_cookware_keywords.any (fun k => str_contains (py_lower m) k)

/-- Closed form of the decisions `decide_tools_node` records for a
message. -/
def decided_tools (m : String) : ToolDecisions :=
  ⟨msg_web_trigger m || !msg_skip m, !msg_skip m⟩

/-- The state after a successful `classify_query_node` on the initial
state, when `.get` returned `b`. -/
def classified_state (C : Collabs) (msg : String) (b : JVal) : RecipeState :=
  { initial_state msg with
      classification_result := classify_query C.classifier_llm msg,
      is_cooking_related := b,
      debug_info :=
        { classification := some (classify_query C.classifier_llm msg),
          tool_decisions := none } }

/-- The payload `run` assembles from a state the graph returned
normally. -/
def ok_payload (final : RecipeState) : RunPayload :=
  { response := final.final_response,
    is_cooking_related := final.is_cooking_related,
    tools_used := final.tools_used,
    cookware_check := some final.cookware_check_result,
    debug_info := .info final.debug_info }

/-- The payload of the top-level exception handler of `run`. -/
def error_payload (e : String) : RunPayload :=
  { response := run_error_response,
    is_cooking_related := .bool false,
    tools_used := [],
    cookware_check := none,
    debug_info := .err e }

/-- The decoded field list of `c7_text`. -/
def c7_fields : List (String × JVal) :=
  [("can_make", .str "yes"), ("required_items", .str "x"),
   ("available_items", .arr [.str "Spatula"]), ("missing_items", .arr []),
   ("confidence", .num (mkRat 3 2)), ("suggestions", .str "s"), ("reasoning", .str "r")]

/-- The decoded field list of `c7_ok_text`. -/
def c7_ok_fields : List (String × JVal) :=
  [("can_make", .bool true), ("required_items", .arr []),
   ("available_items", .arr []), ("missing_items", .arr []),
   ("confidence", .num (mkRat 4 5)), ("suggestions", .str "s"), ("reasoning", .str "r")]

/-! ## Helper lemmas -/

/-- One member with a true predicate makes `List.any` true. -/
theorem any_of_mem {l : List String} {k : String} (p : String → Bool)
    (hk : k ∈ l) (h : p k = true) : l.any p = true :=
  List.any_eq_true.2 ⟨k, hk, h⟩

/-- `List.any` is false when the predicate fails on every member. -/
theorem any_eq_false_of_all {l : List String} (p : String → Bool)
    (h : ∀ k ∈ l, p k = false) : l.any p = false := by
  rw [List.any_eq_false]
  intro k hk
  simp [h k hk]

/-- What `decide_tools_node` does, in closed form: the recorded pair is
(trigger-match OR no-exclusion-match, no-exclusion-match), and nothing else
in the state changes. -/
theorem decide_tools_spec (s : RecipeState) :
    decide_tools_node s =
      { s with debug_info :=
          { s.debug_info with tool_decisions := some (decided_tools s.user_message) } } := by
  unfold decide_tools_node decided_tools msg_web_trigger msg_skip
  cases h1 : search_keywords.any (fun k => str_contains (py_lower s.user_message) k) <;>
    cases h2 : skip_cookware_keywords.any (fun k => str_contains (py_lower s.user_message) k) <;>
      simp [h1, h2]

/-- `generate_response_node` only writes `final_response`. -/
theorem generate_fields (C : Collabs) (s : RecipeState) :
    (generate_response_node C s).tools_used = s.tools_used ∧
    (generate_response_node C s).debug_info = s.debug_info ∧
    (generate_response_node C s).user_message = s.user_message ∧
    (generate_response_node C s).is_cooking_related = s.is_cooking_related ∧
    (generate_response_node C s).classification_result = s.classification_result ∧
    (generate_response_node C s).cookware_check_result = s.cookware_check_result := by
  cases hb : build_context s with
  | error e => simp [generate_response_node, hb]
  | ok ctx =>
      cases hr : C.responder_llm s.user_message ctx <;>
        simp [generate_response_node, hb, hr]

/-- A successful `classify_query_node` writes exactly the classification
fields and resets `debug_info`. -/
theorem classify_node_eq (C : Collabs) (s : RecipeState) (b : JVal)
    (h : py_dict_get (classify_query C.classifier_llm s.user_message)
          "is_cooking_related" (.bool false) = .ok b) :
    classify_query_node C s =
      .ok { s with
              classification_result := classify_query C.classifier_llm s.user_message,
              is_cooking_related := b,
              debug_info :=
                { classification := some (classify_query C.classifier_llm s.user_message),
                  tool_decisions := none } } := by
  simp only [classify_query_node]
  rw [h]

/-- A successful `cookware_check_node` appends `"cookware_check"` and
stores the verdict. -/
theorem cookware_node_eq (C : Collabs) (s : RecipeState) (rc : String)
    (h : cookware_recipe_content s = .ok rc) :
    cookware_check_node C s =
      .ok { s with
              cookware_check_result := check_recipe_feasibility (C.checker_llm rc),
              tools_used := s.tools_used ++ ["cookware_check"] } := by
  unfold cookware_check_node
  rw [h]

/-- `run` wraps a normal graph result into `ok_payload`. -/
theorem run_of_ok (C : Collabs) (msg : String) (fin : RecipeState)
    (h : graph_invoke C (initial_state msg) = .ok fin) :
    run C msg = ok_payload fin := by
  unfold run
  rw [h]
  rfl

/-- `run` wraps an escaped exception into `error_payload`. -/
theorem run_of_error (C : Collabs) (msg : String) (e : String)
    (h : graph_invoke C (initial_state msg) = .error e) :
    run C msg = error_payload e := by
  unfold run
  rw [h]
  rfl

/-- `classify_query_node` on the initial state, in closed form. -/
theorem classify_initial (C : Collabs) (msg : String) (b : JVal)
    (hcls : py_dict_get (classify_query C.classifier_llm msg)
        "is_cooking_related" (.bool false) = .ok b) :
    classify_query_node C (initial_state msg) = .ok (classified_state C msg b) :=
  classify_node_eq C (initial_state msg) b hcls

/-- All title and snippet values strings ⇒ the joined text exists. -/
theorem map_title_snippets_ok (l : List FormattedResult)
    (h : ∀ r ∈ l, (∃ t, r.title = JVal.str t) ∧ (∃ sn, r.snippet = JVal.str sn)) :
    ∃ ps, map_title_snippets l = .ok ps := by
  induction l with
  | nil => exact ⟨[], rfl⟩
  | cons r rs ih =>
      obtain ⟨⟨t, ht⟩, ⟨sn, hs⟩⟩ := h r (by simp)
      obtain ⟨ps, hps⟩ := ih (fun x hx => h x (by simp [hx]))
      refine ⟨(t ++ " " ++ sn) :: ps, ?_⟩
      have hts : title_snippet_text r = .ok (t ++ " " ++ sn) := by
        unfold title_snippet_text
        rw [ht, hs]
        rfl
      unfold map_title_snippets
      rw [hts, hps]

/-- String-valued search results ⇒ `cookware_recipe_content` succeeds. -/
theorem cookware_content_ok (s : RecipeState)
    (h : ∀ wsr, s.web_search_results = some wsr →
        ∀ r ∈ wsr.results, (∃ t, r.title = JVal.str t) ∧ (∃ sn, r.snippet = JVal.str sn)) :
    ∃ rc, cookware_recipe_content s = .ok rc := by
  unfold cookware_recipe_content
  cases hw : s.web_search_results with
  | none => exact ⟨s.user_message, rfl⟩
  | some wsr =>
      cases hsucc : wsr.success with
      | false => exact ⟨s.user_message, by simp [hsucc]⟩
      | true =>
          cases hres : wsr.results.isEmpty with
          | true => exact ⟨s.user_message, by simp [hsucc, hres]⟩
          | false =>
              obtain ⟨ps, hps⟩ := map_title_snippets_ok (wsr.results.take 2)
                (fun r hr => h wsr hw r (List.mem_of_mem_take hr))
              exact ⟨String.intercalate " " ps, by simp [hsucc, hres, hps]⟩

/-- A falsy classification routes to `handle_non_cooking`. -/
theorem run_route_noncooking (C : Collabs) (msg : String) (b : JVal)
    (hcls : py_dict_get (classify_query C.classifier_llm msg)
        "is_cooking_related" (.bool false) = .ok b)
    (hb : pyTruthy b = false) :
    run C msg = ok_payload (handle_non_cooking_node (classified_state C msg b)) := by
  apply run_of_ok
  unfold graph_invoke
  rw [classify_initial C msg b hcls]
  have hsp : should_proceed_with_cooking (classified_state C msg b) = "non_cooking" := by
    unfold should_proceed_with_cooking classified_state initial_state
    simp [hb]
  simp [hsp]

/-- A truthy classification with an exclusion-phrase match and no trigger
phrase routes through `neither` straight to `generate_response`. -/
theorem run_route_neither (C : Collabs) (msg : String) (b : JVal)
    (hcls : py_dict_get (classify_query C.classifier_llm msg)
        "is_cooking_related" (.bool false) = .ok b)
    (hb : pyTruthy b = true)
    (hsk : msg_skip msg = true)
    (hwt : msg_web_trigger msg = false) :
    run C msg = ok_payload (generate_response_node C
      (decide_tools_node (classified_state C msg b))) := by
  apply run_of_ok
  unfold graph_invoke
  rw [classify_initial C msg b hcls]
  have hsp : should_proceed_with_cooking (classified_state C msg b) = "cooking" := by
    unfold should_proceed_with_cooking classified_state initial_state
    simp [hb]
  have hwtu : which_tools_to_use (decide_tools_node (classified_state C msg b)) = "neither" := by
    rw [decide_tools_spec]
    unfold which_tools_to_use decided_tools
    simp [classified_state, initial_state, hsk, hwt]
  simp [hsp, hwtu]

/-- A truthy classification with an exclusion-phrase match but also a
trigger phrase routes through `web_search` only; the post-search predicate
re-excludes the cookware check. -/
theorem run_route_web_only (C : Collabs) (msg : String) (b : JVal)
    (hcls : py_dict_get (classify_query C.classifier_llm msg)
        "is_cooking_related" (.bool false) = .ok b)
    (hb : pyTruthy b = true)
    (hsk : msg_skip msg = true)
    (hwt : msg_web_trigger msg = true) :
    run C msg = ok_payload (generate_response_node C
      (web_search_node C (decide_tools_node (classified_state C msg b)))) := by
  apply run_of_ok
  unfold graph_invoke
  rw [classify_initial C msg b hcls]
  have hsp : should_proceed_with_cooking (classified_state C msg b) = "cooking" := by
    unfold should_proceed_with_cooking classified_state initial_state
    simp [hb]
  have hwtu : which_tools_to_use (decide_tools_node (classified_state C msg b)) = "web_search" := by
    rw [decide_tools_spec]
    unfold which_tools_to_use decided_tools
    simp [classified_state, initial_state, hsk, hwt]
  have hscc : should_check_cookware
      (web_search_node C (decide_tools_node (classified_state C msg b))) = "no" := by
    rw [decide_tools_spec]
    unfold should_check_cookware web_search_node decided_tools msg_skip at *
    simp [classified_state, initial_state, hsk]
  unfold web_search_path
  simp [hsp, hwtu, hscc]

/-- A truthy classification with no exclusion-phrase match routes through
`both`: web search, then the cookware check — which either runs (appending
its tool) or raises a `TypeError` that escapes to `run`. -/
theorem run_route_both_gen (C : Collabs) (msg : String) (b : JVal)
    (hcls : py_dict_get (classify_query C.classifier_llm msg)
        "is_cooking_related" (.bool false) = .ok b)
    (hb : pyTruthy b = true)
    (hsk : msg_skip msg = false) :
    (∃ rc, cookware_recipe_content
        (web_search_node C (decide_tools_node (classified_state C msg b))) = .ok rc ∧
      (run C msg).tools_used = ["web_search", "cookware_check"]) ∨
    (∃ e, cookware_recipe_content
        (web_search_node C (decide_tools_node (classified_state C msg b))) = .error e ∧
      run C msg = error_payload e) := by
  have hsp : should_proceed_with_cooking (classified_state C msg b) = "cooking" := by
    unfold should_proceed_with_cooking classified_state initial_state
    simp [hb]
  have hwtu : which_tools_to_use (decide_tools_node (classified_state C msg b)) = "both" := by
    rw [decide_tools_spec]
    unfold which_tools_to_use decided_tools
    simp [classified_state, initial_state, hsk]
  have hscc : should_check_cookware
      (web_search_node C (decide_tools_node (classified_state C msg b))) = "yes" := by
    rw [decide_tools_spec]
    unfold should_check_cookware web_search_node decided_tools
    simp [classified_state, initial_state, hsk]
  cases hrc : cookware_recipe_content
      (web_search_node C (decide_tools_node (classified_state C msg b))) with
  | ok rc =>
      left
      refine ⟨rc, rfl, ?_⟩
      have h4 := cookware_node_eq C
        (web_search_node C (decide_tools_node (classified_state C msg b))) rc hrc
      have hginv : graph_invoke C (initial_state msg) =
          .ok (generate_response_node C
            { web_search_node C (decide_tools_node (classified_state C msg b)) with
                cookware_check_result :=
                  check_recipe_feasibility (C.checker_llm rc),
                tools_used :=
                  (web_search_node C (decide_tools_node (classified_state C msg b))).tools_used
                    ++ ["cookware_check"] }) := by
        unfold graph_invoke
        rw [classify_initial C msg b hcls]
        unfold web_search_path
        simp [hsp, hwtu, hscc, h4]
      rw [run_of_ok _ _ _ hginv]
      have ht := (generate_fields C
        { web_search_node C (decide_tools_node (classified_state C msg b)) with
            cookware_check_result := check_recipe_feasibility (C.checker_llm rc),
            tools_used :=
              (web_search_node C (decide_tools_node (classified_state C msg b))).tools_used
                ++ ["cookware_check"] }).1
      unfold ok_payload
      rw [ht]
      rfl
  | error e =>
      right
      refine ⟨e, rfl, ?_⟩
      apply run_of_error
      unfold graph_invoke
      rw [classify_initial C msg b hcls]
      unfold web_search_path
      have hcwerr : cookware_check_node C
          (web_search_node C (decide_tools_node (classified_state C msg b))) = .error e := by
        unfold cookware_check_node
        rw [hrc]
      simp [hsp, hwtu, hscc, hcwerr]

/-- An escaped `.get` exception in the classifier step makes `run` return
the error payload. -/
theorem run_route_classify_error (C : Collabs) (msg : String) (e : String)
    (h : py_dict_get (classify_query C.classifier_llm msg)
        "is_cooking_related" (.bool false) = .error e) :
    run C msg = error_payload e := by
  apply run_of_error
  unfold graph_invoke
  have h2 : py_dict_get (classify_query C.classifier_llm (initial_state msg).user_message)
      "is_cooking_related" (.bool false) = .error e := h
  have hcn : classify_query_node C (initial_state msg) = .error e := by
    simp only [classify_query_node]
    rw [h2]
  rw [hcn]

/-- Every run ends with one of the three reachable tool lists. -/
theorem run_tools_cases (C : Collabs) (msg : String) :
    (run C msg).tools_used = [] ∨ (run C msg).tools_used = ["web_search"] ∨
      (run C msg).tools_used = ["web_search", "cookware_check"] := by
  cases hg : py_dict_get (classify_query C.classifier_llm msg)
      "is_cooking_related" (.bool false) with
  | error e =>
      left
      rw [run_route_classify_error C msg e hg]
      rfl
  | ok b =>
      cases hbt : pyTruthy b with
      | false =>
          left
          rw [run_route_noncooking C msg b hg hbt]
          rfl
      | true =>
          cases hsk2 : msg_skip msg with
          | false =>
              rcases run_route_both_gen C msg b hg hbt hsk2 with ⟨rc, _, htools⟩ | ⟨e, _, hrun⟩
              · right; right; exact htools
              · left
                rw [hrun]
                rfl
          | true =>
              cases hwt2 : msg_web_trigger msg with
              | true =>
                  right; left
                  rw [run_route_web_only C msg b hg hbt hsk2 hwt2]
                  show (generate_response_node C
                    (web_search_node C (decide_tools_node (classified_state C msg b)))).tools_used
                      = ["web_search"]
                  rw [(generate_fields C
                    (web_search_node C (decide_tools_node (classified_state C msg b)))).1]
                  rfl
              | false =>
                  left
                  rw [run_route_neither C msg b hg hbt hsk2 hwt2]
                  show (generate_response_node C
                    (decide_tools_node (classified_state C msg b))).tools_used = []
                  rw [(generate_fields C (decide_tools_node (classified_state C msg b))).1]
                  rfl

/-- `find?` after an in-place update of key `k`, looked up at `k`. -/
theorem find_update_self (fs : List (String × JVal)) (k : String) (f : JVal → JVal) :
    (update_field fs k f).find? (fun p => p.1 = k) =
      (fs.find? (fun p => p.1 = k)).map (fun p => (p.1, f p.2)) := by
  induction fs with
  | nil => rfl
  | cons p rest ih =>
      by_cases hp : p.1 = k
      · have h1 : update_field (p :: rest) k f = (p.1, f p.2) :: update_field rest k f := by
          simp [update_field, hp]
        rw [h1, List.find?_cons_of_pos _ (by simp [hp]),
          List.find?_cons_of_pos _ (by simp [hp])]
        simp
      · have h1 : update_field (p :: rest) k f = p :: update_field rest k f := by
          simp [update_field, hp]
        rw [h1, List.find?_cons_of_neg _ (by simp [hp]),
          List.find?_cons_of_neg _ (by simp [hp])]
        exact ih

/-- `find?` after an in-place update of key `k`, looked up at another
key. -/
theorem find_update_other (fs : List (String × JVal)) (k k2 : String) (f : JVal → JVal)
    (h : k2 ≠ k) :
    (update_field fs k f).find? (fun p => p.1 = k2) = fs.find? (fun p => p.1 = k2) := by
  induction fs with
  | nil => rfl
  | cons p rest ih =>
      by_cases hp : p.1 = k
      · have hpk2 : ¬ (p.1 = k2) := by
          rw [hp]
          exact fun hh => h hh.symm
        have h1 : update_field (p :: rest) k f = (p.1, f p.2) :: update_field rest k f := by
          simp [update_field, hp]
        rw [h1, List.find?_cons_of_neg _ (by simp [hpk2]),
          List.find?_cons_of_neg _ (by simp [hpk2])]
        exact ih
      · have h1 : update_field (p :: rest) k f = p :: update_field rest k f := by
          simp [update_field, hp]
        by_cases hq : p.1 = k2
        · rw [h1, List.find?_cons_of_pos _ (by simp [hq]),
            List.find?_cons_of_pos _ (by simp [hq])]
        · rw [h1, List.find?_cons_of_neg _ (by simp [hq]),
            List.find?_cons_of_neg _ (by simp [hq])]
          exact ih

/-- The direct-parse path of `check_recipe_feasibility`: a dict with all
required fields is returned with the in-place coercions. -/
theorem check_direct_path (text : String) (fs : List (String × JVal))
    (h1 : json_loads (py_strip text) = some (.obj fs))
    (h2 : required_fields.all (fun f => (py_in f (JVal.obj fs)).getD false) = true) :
    check_recipe_feasibility (.ok text) = .obj (coerce_feasibility_fields fs) := by
  simp only [check_recipe_feasibility, h1, py_all_fields_in, h2]

/-- `check_recipe_feasibility` when neither parse attempt succeeds. -/
theorem check_parse_fail (text : String)
    (h1 : json_loads (py_strip text) = none)
    (h2 : ∀ j, brace_extract (py_strip text) = some j → json_loads j = none) :
    check_recipe_feasibility (.ok text) = cookware_parse_fallback (py_strip text) := by
  have hstep : check_recipe_feasibility (.ok text) = extract_json_path (py_strip text) := by
    simp only [check_recipe_feasibility, h1]
  rw [hstep]
  unfold extract_json_path
  cases hb : brace_extract (py_strip text) with
  | none => rfl
  | some j =>
      simp only [h2 j hb]

/-- `classify_query` when the response is not valid JSON. -/
theorem classify_parse_fail (llm : String → Except String String) (query content : String)
    (h1 : llm query = .ok content) (h2 : json_loads (py_strip content) = none) :
    classify_query llm query = classifier_parse_fallback := by
  simp only [classify_query, h1, h2]

/-- `classify_query` on a call-level exception. -/
theorem classify_llm_error (llm : String → Except String String) (query e : String)
    (h : llm query = .error e) :
    classify_query llm query = classifier_error_fallback e := by
  simp only [classify_query, h]

/-- Looking up `confidence` after the five in-place coercions. -/
theorem coerce_lookup_confidence (fs : List (String × JVal)) :
    obj_lookup (.obj (coerce_feasibility_fields fs)) "confidence" =
      (obj_lookup (.obj fs) "confidence").map coerce_confidence_py := by
  simp only [coerce_feasibility_fields, obj_lookup]
  rw [find_update_other _ "can_make" "confidence" _ (by decide)]
  rw [find_update_self]
  rw [find_update_other _ "missing_items" "confidence" _ (by decide)]
  rw [find_update_other _ "available_items" "confidence" _ (by decide)]
  rw [find_update_other _ "required_items" "confidence" _ (by decide)]
  cases fs.find? (fun p => p.1 = "confidence") <;> simp

/-- Looking up `can_make` after the five in-place coercions. -/
theorem coerce_lookup_can_make (fs : List (String × JVal)) :
    obj_lookup (.obj (coerce_feasibility_fields fs)) "can_make" =
      (obj_lookup (.obj fs) "can_make").map coerce_can_make_py := by
  simp only [coerce_feasibility_fields, obj_lookup]
  rw [find_update_self]
  rw [find_update_other _ "confidence" "can_make" _ (by decide)]
  rw [find_update_other _ "missing_items" "can_make" _ (by decide)]
  rw [find_update_other _ "available_items" "can_make" _ (by decide)]
  rw [find_update_other _ "required_items" "can_make" _ (by decide)]
  cases fs.find? (fun p => p.1 = "can_make") <;> simp

/-- Looking up one of the three item-list fields after the five in-place
coercions. -/
theorem coerce_lookup_list (fs : List (String × JVal)) (f : String)
    (hf : f = "required_items" ∨ f = "available_items" ∨ f = "missing_items") :
    obj_lookup (.obj (coerce_feasibility_fields fs)) f =
      (obj_lookup (.obj fs) f).map coerce_list_py := by
  simp only [coerce_feasibility_fields, obj_lookup]
  rcases hf with rfl | rfl | rfl
  · rw [find_update_other _ "can_make" "required_items" _ (by decide)]
    rw [find_update_other _ "confidence" "required_items" _ (by decide)]
    rw [find_update_other _ "missing_items" "required_items" _ (by decide)]
    rw [find_update_other _ "available_items" "required_items" _ (by decide)]
    rw [find_update_self]
    cases fs.find? (fun p => p.1 = "required_items") <;> simp
  · rw [find_update_other _ "can_make" "available_items" _ (by decide)]
    rw [find_update_other _ "confidence" "available_items" _ (by decide)]
    rw [find_update_other _ "missing_items" "available_items" _ (by decide)]
    rw [find_update_self]
    rw [find_update_other _ "required_items" "available_items" _ (by decide)]
    cases fs.find? (fun p => p.1 = "available_items") <;> simp
  · rw [find_update_other _ "can_make" "missing_items" _ (by decide)]
    rw [find_update_other _ "confidence" "missing_items" _ (by decide)]
    rw [find_update_self]
    rw [find_update_other _ "available_items" "missing_items" _ (by decide)]
    rw [find_update_other _ "required_items" "missing_items" _ (by decide)]
    cases fs.find? (fun p => p.1 = "missing_items") <;> simp

/-- The five in-place coercions leave every other key untouched. -/
theorem coerce_lookup_unchanged (fs : List (String × JVal)) (f : String)
    (h1 : f ≠ "required_items") (h2 : f ≠ "available_items")
    (h3 : f ≠ "missing_items") (h4 : f ≠ "confidence") (h5 : f ≠ "can_make") :
    obj_lookup (.obj (coerce_feasibility_fields fs)) f = obj_lookup (.obj fs) f := by
  simp only [coerce_feasibility_fields, obj_lookup]
  rw [find_update_other _ "can_make" f _ h5]
  rw [find_update_other _ "confidence" f _ h4]
  rw [find_update_other _ "missing_items" f _ h3]
  rw [find_update_other _ "available_items" f _ h2]
  rw [find_update_other _ "required_items" f _ h1]

/-- A field reported present by the membership check can be looked up. -/
theorem lookup_of_field_present (fs : List (String × JVal)) (f : String)
    (h : (py_in f (JVal.obj fs)).getD false = true) :
    ∃ v, obj_lookup (.obj fs) f = some v := by
  have hany : fs.any (fun p => p.1 = f) = true := by
    simpa [py_in] using h
  obtain ⟨p, hp, hpf⟩ := List.any_eq_true.1 hany
  have hsome : (fs.find? (fun p => p.1 = f)).isSome := List.find?_isSome.2 ⟨p, hp, hpf⟩
  obtain ⟨q, hq⟩ := Option.isSome_iff_exists.1 hsome
  refine ⟨q.2, ?_⟩
  simp only [obj_lookup]
  rw [hq]
  rfl

/-- The coerced confidence is always Python-numeric with value in
`[0, 1]`. -/
theorem coerce_confidence_in_range (v : JVal) :
    py_isinstance_num (coerce_confidence_py v) = true ∧
    0 ≤ py_num_val (coerce_confidence_py v) ∧ py_num_val (coerce_confidence_py v) ≤ 1 := by
  unfold coerce_confidence_py
  by_cases hc : py_isinstance_num v = true ∧ 0 ≤ py_num_val v ∧ py_num_val v ≤ 1
  · rw [if_pos hc]
    exact hc
  · rw [if_neg hc]
    refine ⟨rfl, by decide, by decide⟩

/-! ## Claim theorems -/

/-- C1: for every user message, `decide_tools` computes `needs_web_search`
true iff the lower-cased message contains one of the five literal trigger
substrings, computes `needs_cookware_check` true unless the lower-cased
message contains one of the informational-exclusion phrases, forces
`needs_web_search` to true when it was false and `needs_cookware_check` is
true, and records both resulting booleans in
`debug_info.tool_decisions`. -/
theorem C1_decide_tools_records_decisions (s : RecipeState) :
    ((decide_tools_node s).debug_info.tool_decisions =
      some { needs_web_search :=
               if !(msg_web_trigger s.user_message) && !(msg_skip s.user_message) then true
               else msg_web_trigger s.user_message,
             needs_cookware_check := !(msg_skip s.user_message) }) ∧
    (msg_web_trigger s.user_message = true ↔
      ∃ k ∈ search_keywords, str_contains (py_lower s.user_message) k = true) ∧
    (msg_skip s.user_message = true ↔
      ∃ k ∈ skip_cookware_keywords, str_contains (py_lower s.user_message) k = true) := by
  refine ⟨?_, ?_, ?_⟩
  · rw [decide_tools_spec]
    show some (decided_tools s.user_message) = _
    unfold decided_tools
    cases hw : msg_web_trigger s.user_message <;>
      cases hs : msg_skip s.user_message <;> simp
  · unfold msg_web_trigger
    simp [List.any_eq_true]
  · unfold msg_skip
    simp [List.any_eq_true]

/-- C2 counterexample: the cooking-related message `"what is sous vide"`
contains `"what is"` and no search-trigger phrase; the run finishes with
`tools_used = []` and `needs_web_search` recorded as `false` — not
`["web_search"]` with `needs_web_search` forced true, as the claim
asserts. -/
theorem C2_counterexample :
    (run stub_collabs "what is sous vide").tools_used = [] ∧
    ¬ ((run stub_collabs "what is sous vide").tools_used = ["web_search"]) ∧
    (run stub_collabs "what is sous vide").debug_info =
      .info { classification := some (.obj [("is_cooking_related", .bool true),
                                            ("confidence", .num (mkRat 9 10)),
                                            ("reasoning", .str "r")]),
              tool_decisions := some { needs_web_search := false,
                                       needs_cookware_check := false } } := by
  refine ⟨rfl, by decide, rfl⟩

/-- C2 amended: for every cooking-related message containing `"what is"` or
`"define"`, `decide_tools` sets `needs_cookware_check` to false; if the
message additionally contains no search-trigger phrase, the default-bias
rule does not fire (it requires `needs_cookware_check` to be true), so
`needs_web_search` stays false, the route is `neither`, and the run
finishes with `tools_used = []` — no web search and no cookware check. -/
theorem C2_amended_informational_runs_no_tools (C : Collabs) (msg : String) (b : JVal)
    (hcls : py_dict_get (classify_query C.classifier_llm msg)
        "is_cooking_related" (.bool false) = .ok b)
    (hb : pyTruthy b = true)
    (hphrase : str_contains (py_lower msg) "what is" = true ∨
               str_contains (py_lower msg) "define" = true)
    (hnotrig : ∀ k ∈ search_keywords, str_contains (py_lower msg) k = false) :
    (run C msg).tools_used = [] ∧
    (run C msg).debug_info = .info
      { classification := some (classify_query C.classifier_llm msg),
        tool_decisions := some { needs_web_search := false,
                                 needs_cookware_check := false } } := by
  have hsk : msg_skip msg = true := by
    unfold msg_skip
    rcases hphrase with h | h
    · exact any_of_mem _ (by simp [skip_cookware_keywords]) h
    · exact any_of_mem _ (by simp [skip_cookware_keywords]) h
  have hwt : msg_web_trigger msg = false := by
    unfold msg_web_trigger
    exact any_eq_false_of_all _ hnotrig
  rw [run_route_neither C msg b hcls hb hsk hwt]
  constructor
  · show (generate_response_node C (decide_tools_node (classified_state C msg b))).tools_used = []
    rw [(generate_fields C (decide_tools_node (classified_state C msg b))).1]
    rfl
  · show PayloadDebug.info
      (generate_response_node C (decide_tools_node (classified_state C msg b))).debug_info = _
    rw [(generate_fields C (decide_tools_node (classified_state C msg b))).2.1]
    rw [decide_tools_spec]
    show PayloadDebug.info
      { classification := some (classify_query C.classifier_llm msg),
        tool_decisions := some (decided_tools msg) } = _
    simp [decided_tools, hsk, hwt]

/-- Witness for C2 amended at a concrete input. -/
theorem C2_amended_witness :
    py_dict_get (classify_query stub_collabs.classifier_llm "what is sous vide")
      "is_cooking_related" (.bool false) = .ok (.bool true) ∧
    str_contains (py_lower "what is sous vide") "what is" = true ∧
    (run stub_collabs "what is sous vide").tools_used = [] :=
  ⟨rfl, by decide,
    (C2_amended_informational_runs_no_tools stub_collabs "what is sous vide" (.bool true)
      rfl rfl (Or.inl (by decide)) (by decide)).1⟩

/-- C3: for every cooking-related message containing `"recipe for"` or
`"how to make"` and none of the informational-exclusion phrases, the
finished run's `tools_used` is exactly `["web_search", "cookware_check"]`
— both tools, web search first.  The search collaborator is assumed to
honour the §6 interface (string-valued titles and snippets). -/
theorem C3_recipe_runs_both_tools (C : Collabs) (msg : String) (b : JVal)
    (hcls : py_dict_get (classify_query C.classifier_llm msg)
        "is_cooking_related" (.bool false) = .ok b)
    (hb : pyTruthy b = true)
    (hphrase : str_contains (py_lower msg) "recipe for" = true ∨
               str_contains (py_lower msg) "how to make" = true)
    (hskip : ∀ k ∈ skip_cookware_keywords, str_contains (py_lower msg) k = false)
    (hwf : ∀ r ∈ (search_recipes C.serp_api_key C.serp_call msg 5).results,
        (∃ t, r.title = JVal.str t) ∧ (∃ sn, r.snippet = JVal.str sn)) :
    (run C msg).tools_used = ["web_search", "cookware_check"] := by
  have hsk : msg_skip msg = false := by
    unfold msg_skip
    exact any_eq_false_of_all _ hskip
  rcases run_route_both_gen C msg b hcls hb hsk with ⟨rc, hrc, htools⟩ | ⟨e, herr, hrun⟩
  · exact htools
  · exfalso
    have hh : ∀ wsr,
        (web_search_node C (decide_tools_node (classified_state C msg b))).web_search_results
          = some wsr →
        ∀ r ∈ wsr.results, (∃ t, r.title = JVal.str t) ∧ (∃ sn, r.snippet = JVal.str sn) := by
      intro wsr hw r hr
      have hww : some wsr = some (search_recipes C.serp_api_key C.serp_call msg 5) := by
        rw [← hw]
        rfl
      have heq : wsr = search_recipes C.serp_api_key C.serp_call msg 5 := by
        injection hww
      subst heq
      exact hwf r hr
    obtain ⟨rc, hok⟩ := cookware_content_ok
      (web_search_node C (decide_tools_node (classified_state C msg b))) hh
    rw [herr] at hok
    exact Except.noConfusion hok

/-- Witness for C3 at a concrete input (the stub search has no API key, so
the result list is empty and trivially well formed). -/
theorem C3_witness :
    str_contains (py_lower "recipe for pancakes") "recipe for" = true ∧
    (run stub_collabs "recipe for pancakes").tools_used = ["web_search", "cookware_check"] :=
  ⟨by decide,
    C3_recipe_runs_both_tools stub_collabs "recipe for pancakes" (.bool true) rfl rfl
      (Or.inl (by decide)) (by decide)
      (fun r hr => absurd hr (List.not_mem_nil r))⟩

/-- C4 counterexample: a classifier response that is valid JSON with
confidence `1.5` is stored verbatim — the classifier's successful-parse
path applies no normalization, so the workflow state holds a confidence
outside `[0, 1]`. -/
theorem C4_counterexample :
    obj_lookup (classify_query c4_collabs.classifier_llm "what is x") "confidence"
      = some (.num (mkRat 3 2)) ∧
    (run c4_collabs "what is x").debug_info = .info
      { classification := some (.obj [("is_cooking_related", .bool true),
                                      ("confidence", .num (mkRat 3 2)),
                                      ("reasoning", .str "r")]),
        tool_decisions := some { needs_web_search := false,
                                 needs_cookware_check := false } } ∧
    ¬ (mkRat 3 2 ≤ 1) := by
  refine ⟨rfl, rfl, by decide⟩

/-- C4 amended: confidence is normalized on the feasibility checker's
direct-parse path (clamped into `[0, 1]` with fallback `0.5`), and the
fallback paths of both tools store fixed in-range constants (`0.3` for a
checker exception, `0.5` for classifier parse failures and exceptions);
but a confidence parsed from a well-formed classifier response — and one
recovered through the checker's brace-extraction path — is stored without
normalization. -/
theorem C4_amended_confidence_normalization :
    (∀ text fs, json_loads (py_strip text) = some (JVal.obj fs) →
      required_fields.all (fun f => (py_in f (JVal.obj fs)).getD false) = true →
      ∃ c, obj_lookup (check_recipe_feasibility (.ok text)) "confidence" = some c ∧
        py_isinstance_num c = true ∧ 0 ≤ py_num_val c ∧ py_num_val c ≤ 1) ∧
    (∀ e, obj_lookup (check_recipe_feasibility (.error e)) "confidence"
      = some (.num (mkRat 3 10))) ∧
    (∀ llm query content, llm query = .ok content → json_loads (py_strip content) = none →
      obj_lookup (classify_query llm query) "confidence" = some (.num (mkRat 1 2))) ∧
    (∀ llm query e, llm query = .error e →
      obj_lookup (classify_query llm query) "confidence" = some (.num (mkRat 1 2))) := by
  refine ⟨?_, ?_, ?_, ?_⟩
  · intro text fs h1 h2
    have hcheck := check_direct_path text fs h1 h2
    have hconf : (py_in "confidence" (JVal.obj fs)).getD false = true := by
      have := List.all_eq_true.1 h2 "confidence" (by simp [required_fields])
      simpa using this
    obtain ⟨v, hv⟩ := lookup_of_field_present fs "confidence" hconf
    refine ⟨coerce_confidence_py v, ?_, (coerce_confidence_in_range v).1,
      (coerce_confidence_in_range v).2.1, (coerce_confidence_in_range v).2.2⟩
    rw [hcheck, coerce_lookup_confidence, hv]
    rfl
  · intro e
    rfl
  · intro llm query content h1 h2
    rw [classify_parse_fail llm query content h1 h2]
    rfl
  · intro llm query e h
    rw [classify_llm_error llm query e h]
    rfl

/-- Witness for C4 amended at a concrete well-typed response. -/
theorem C4_amended_witness :
    json_loads (py_strip c7_ok_text) = some (.obj c7_ok_fields) ∧
    (∃ c, obj_lookup (check_recipe_feasibility (.ok c7_ok_text)) "confidence" = some c ∧
      py_isinstance_num c = true ∧ 0 ≤ py_num_val c ∧ py_num_val c ≤ 1) ∧
    obj_lookup (check_recipe_feasibility (.error "boom")) "confidence"
      = some (.num (mkRat 3 10)) :=
  ⟨rfl,
    C4_amended_confidence_normalization.1 c7_ok_text c7_ok_fields rfl (by decide),
    C4_amended_confidence_normalization.2.1 "boom"⟩

/-- C5: whenever the classifier reports `is_cooking_related = false`, the
run terminates through the non-cooking branch: the response is the fixed
redirect message, `tools_used` is empty, and the cookware verdict is still
the initial empty dict — neither web search nor cookware check ran. -/
theorem C5_non_cooking_redirect (C : Collabs) (msg : String)
    (hcls : py_dict_get (classify_query C.classifier_llm msg)
        "is_cooking_related" (.bool false) = .ok (.bool false)) :
    (run C msg).response = non_cooking_response ∧
    (run C msg).tools_used = [] ∧
    (run C msg).cookware_check = some (.obj []) := by
  rw [run_route_noncooking C msg (.bool false) hcls rfl]
  exact ⟨rfl, rfl, rfl⟩

/-- Witness for C5 at a concrete input. -/
theorem C5_witness :
    py_dict_get (classify_query stub_noncooking_collabs.classifier_llm "what is the weather")
      "is_cooking_related" (.bool false) = .ok (.bool false) ∧
    (run stub_noncooking_collabs "what is the weather").response = non_cooking_response ∧
    (run stub_noncooking_collabs "what is the weather").tools_used = [] :=
  ⟨rfl,
    (C5_non_cooking_redirect stub_noncooking_collabs "what is the weather" rfl).1,
    (C5_non_cooking_redirect stub_noncooking_collabs "what is the weather" rfl).2.1⟩

/-- C6: whenever an exception escapes the per-step fallbacks inside the
graph, `run` still returns the well-formed apology payload —
`is_cooking_related = false`, empty `tools_used`, `cookware_check = None`
and `debug_info = {"error": <description>}`.  `run` is a total function of
the graph outcome, so the exception is never propagated to the caller. -/
theorem C6_run_error_payload (C : Collabs) (msg e : String)
    (h : graph_invoke C (initial_state msg) = .error e) :
    run C msg = { response := run_error_response,
                  is_cooking_related := JVal.bool false,
                  tools_used := [],
                  cookware_check := none,
                  debug_info := PayloadDebug.err e } :=
  run_of_error C msg e h

/-- Witness for C6: a classifier returning a JSON list makes
`classification.get(...)` raise, and the run degrades to the apology
payload. -/
theorem C6_witness :
    graph_invoke stub_broken_classifier_collabs (initial_state "hello")
      = .error "AttributeError: object has no attribute get" ∧
    (run stub_broken_classifier_collabs "hello").response = run_error_response ∧
    (run stub_broken_classifier_collabs "hello").tools_used = [] ∧
    (run stub_broken_classifier_collabs "hello").cookware_check = none := by
  have h := C6_run_error_payload stub_broken_classifier_collabs "hello"
    "AttributeError: object has no attribute get" rfl
  exact ⟨rfl, by rw [h], by rw [h], by rw [h]⟩

/-- C7: a feasibility response that parses directly as JSON and contains
all seven required fields is returned as that object with the coercions
applied: non-list item fields become `[]`, a non-numeric or out-of-range
confidence becomes `0.5`, a non-boolean `can_make` becomes `true`, and the
remaining fields are untouched. -/
theorem C7_direct_parse_coercions (text : String) (fs : List (String × JVal))
    (h1 : json_loads (py_strip text) = some (JVal.obj fs))
    (h2 : required_fields.all (fun f => (py_in f (JVal.obj fs)).getD false) = true) :
    check_recipe_feasibility (.ok text) = .obj (coerce_feasibility_fields fs) ∧
    (∀ f, f = "required_items" ∨ f = "available_items" ∨ f = "missing_items" →
      obj_lookup (check_recipe_feasibility (.ok text)) f
        = (obj_lookup (.obj fs) f).map coerce_list_py) ∧
    obj_lookup (check_recipe_feasibility (.ok text)) "confidence"
      = (obj_lookup (.obj fs) "confidence").map coerce_confidence_py ∧
    obj_lookup (check_recipe_feasibility (.ok text)) "can_make"
      = (obj_lookup (.obj fs) "can_make").map coerce_can_make_py ∧
    obj_lookup (check_recipe_feasibility (.ok text)) "suggestions"
      = obj_lookup (.obj fs) "suggestions" ∧
    obj_lookup (check_recipe_feasibility (.ok text)) "reasoning"
      = obj_lookup (.obj fs) "reasoning" := by
  have hc := check_direct_path text fs h1 h2
  refine ⟨hc, ?_, ?_, ?_, ?_, ?_⟩
  · intro f hf
    rw [hc]
    exact coerce_lookup_list fs f hf
  · rw [hc]
    exact coerce_lookup_confidence fs
  · rw [hc]
    exact coerce_lookup_can_make fs
  · rw [hc]
    exact coerce_lookup_unchanged fs _ (by decide) (by decide) (by decide) (by decide) (by decide)
  · rw [hc]
    exact coerce_lookup_unchanged fs _ (by decide) (by decide) (by decide) (by decide) (by decide)

/-- Witness for C7, matching the spec's round-trip example: confidence
`1.5` comes back as `0.5`, a string `required_items` becomes `[]`, a
string `can_make` becomes `true`. -/
theorem C7_witness :
    json_loads (py_strip c7_text) = some (.obj c7_fields) ∧
    check_recipe_feasibility (.ok c7_text) = .obj (coerce_feasibility_fields c7_fields) ∧
    obj_lookup (check_recipe_feasibility (.ok c7_text)) "confidence"
      = some (.num (mkRat 1 2)) ∧
    obj_lookup (check_recipe_feasibility (.ok c7_text)) "required_items" = some (.arr []) ∧
    obj_lookup (check_recipe_feasibility (.ok c7_text)) "can_make" = some (.bool true) :=
  ⟨rfl, (C7_direct_parse_coercions c7_text c7_fields rfl (by decide)).1, rfl, rfl, rfl⟩

/-- C8: when both the direct JSON parse and the brace-delimited extraction
fail, the checker returns the fallback verdict (`can_make = true`, empty
item lists except the full fixed inventory as `available_items`,
confidence `0.5`, reasoning embedding the first 100 characters of the
unparseable response); on a call-level exception it returns the same shape
with confidence `0.3` and a reasoning naming the exception.  Both
fallbacks are values of a total function: the checker never raises. -/
theorem C8_parse_and_error_fallbacks :
    (∀ text, json_loads (py_strip text) = none →
      (∀ j, brace_extract (py_strip text) = some j → json_loads j = none) →
      check_recipe_feasibility (.ok text) = cookware_parse_fallback (py_strip text)) ∧
    (∀ e, check_recipe_feasibility (.error e) = cookware_error_fallback e) := by
  constructor
  · intro text h1 h2
    exact check_parse_fail text h1 h2
  · intro e
    rfl

/-- Witness for C8 at a concrete unparseable response and a concrete
exception. -/
theorem C8_witness :
    json_loads (py_strip "no json here") = none ∧
    check_recipe_feasibility (.ok "no json here")
      = cookware_parse_fallback (py_strip "no json here") ∧
    check_recipe_feasibility (.error "boom") = cookware_error_fallback "boom" :=
  ⟨rfl,
    C8_parse_and_error_fallbacks.1 "no json here" rfl
      (fun j hj => by
        have hj2 : (none : Option String) = some j := hj
        exact Option.noConfusion hj2),
    C8_parse_and_error_fallbacks.2 "boom"⟩

/-- C9: the search provider never raises — an absent API key (the missing
environment variable, or the empty string, both falsy under Python's
`if not self.serp_api_key`) and either kind of call exception all produce
`success = false` with an explanatory error string and no results — and on
the path that does call the API (a configured, non-empty key), the
request's query is the input with the fixed suffix
`" recipe cooking instructions"` appended (the result depends on the call
only through requests carrying that enhanced query). -/
theorem C9_search_graceful_and_suffix :
    (∀ call q n, search_recipes none call q n =
      { success := false, query := none, num_results := none, results := [],
        error := some "SERP API key not configured" }) ∧
    (∀ call q n, search_recipes (some "") call q n =
      { success := false, query := none, num_results := none, results := [],
        error := some "SERP API key not configured" }) ∧
    (∀ k call q n e, k ≠ "" →
      call { q := q ++ " recipe cooking instructions", num := n, api_key := k,
             engine := "google" } = .error (.http e) →
      search_recipes (some k) call q n =
        { success := false, query := none, num_results := none, results := [],
          error := some ("HTTP error: " ++ e) }) ∧
    (∀ k call q n e, k ≠ "" →
      call { q := q ++ " recipe cooking instructions", num := n, api_key := k,
             engine := "google" } = .error (.other e) →
      search_recipes (some k) call q n =
        { success := false, query := none, num_results := none, results := [],
          error := some ("Search error: " ++ e) }) ∧
    (∀ k q n call call2,
      (∀ r, r.q = q ++ " recipe cooking instructions" → call r = call2 r) →
      search_recipes (some k) call q n = search_recipes (some k) call2 q n) := by
  refine ⟨?_, ?_, ?_, ?_, ?_⟩
  · intro call q n
    rfl
  · intro call q n
    rfl
  · intro k call q n e hk h
    simp only [search_recipes]
    rw [if_neg hk]
    simp only [h]
  · intro k call q n e hk h
    simp only [search_recipes]
    rw [if_neg hk]
    simp only [h]
  · intro k q n call call2 h
    simp only [search_recipes]
    by_cases hk : k = ""
    · rw [if_pos hk, if_pos hk]
    · rw [if_neg hk, if_neg hk]
      rw [h { q := q ++ " recipe cooking instructions", num := n, api_key := k,
              engine := "google" } rfl]

/-- Witness for C9: two different call functions that agree on the
enhanced query give identical outcomes; the keyless and the empty-key
searches degrade gracefully; and a failing call behind a configured key
degrades to the HTTP-error result. -/
theorem C9_witness :
    (∀ r : SerpRequest, r.q = "pasta" ++ " recipe cooking instructions" →
      c9_call_a r = c9_call_b r) ∧
    search_recipes (some "K") c9_call_a "pasta" 5
      = search_recipes (some "K") c9_call_b "pasta" 5 ∧
    search_recipes none c9_call_a "pasta" 5 =
      { success := false, query := none, num_results := none, results := [],
        error := some "SERP API key not configured" } ∧
    search_recipes (some "") c9_call_b "pasta" 5 =
      { success := false, query := none, num_results := none, results := [],
        error := some "SERP API key not configured" } ∧
    search_recipes (some "K") (fun _ => .error (.http "down")) "pasta" 5 =
      { success := false, query := none, num_results := none, results := [],
        error := some ("HTTP error: " ++ "down") } := by
  have hagree : ∀ r : SerpRequest, r.q = "pasta" ++ " recipe cooking instructions" →
      c9_call_a r = c9_call_b r := by
    intro r hr
    simp only [c9_call_a, c9_call_b]
    rw [hr, if_pos (by decide)]
  exact ⟨hagree,
    C9_search_graceful_and_suffix.2.2.2.2 "K" "pasta" 5 c9_call_a c9_call_b hagree,
    C9_search_graceful_and_suffix.1 c9_call_a "pasta" 5,
    C9_search_graceful_and_suffix.2.1 c9_call_b "pasta" 5,
    C9_search_graceful_and_suffix.2.2.1 "K" (fun _ => .error (.http "down")) "pasta" 5
      "down" (by decide) rfl⟩

/-- C10: the tool-selection edge never returns `"cookware_only"` — the
default-bias rule makes `(needs_web_search, needs_cookware_check) =
(false, true)` unreachable after `decide_tools`, so the direct
`decide_tools → cookware_check` transition is dead and a cookware check
can only execute after a web search: any run whose `tools_used` mentions
`"cookware_check"` is exactly `["web_search", "cookware_check"]`. -/
theorem C10_cookware_only_unreachable :
    (∀ s, which_tools_to_use (decide_tools_node s) ≠ "cookware_only") ∧
    (∀ C msg, "cookware_check" ∈ (run C msg).tools_used →
      (run C msg).tools_used = ["web_search", "cookware_check"]) := by
  constructor
  · intro s
    rw [decide_tools_spec]
    unfold which_tools_to_use decided_tools
    cases hw : msg_web_trigger s.user_message <;>
      cases hs : msg_skip s.user_message <;> simp [hw, hs]
  · intro C msg hmem
    rcases run_tools_cases C msg with h | h | h
    · rw [h] at hmem
      simp at hmem
    · rw [h] at hmem
      simp at hmem
    · exact h

/-- Witness for C10 at a concrete run that does check cookware. -/
theorem C10_witness :
    "cookware_check" ∈ (run stub_collabs "recipe for pancakes").tools_used ∧
    (run stub_collabs "recipe for pancakes").tools_used = ["web_search", "cookware_check"] :=
  ⟨by decide,
    C10_cookware_only_unreachable.2 stub_collabs "recipe for pancakes" (by decide)⟩
